import Mathlib

/-!
Verification of the IBT_2 wiper-motor servo controller.

Shallow embedding of `src/IBT_2_Servocontroller.ino`: a closed-loop motor
position controller that captures a PWM command pulse width, filters it,
maps command and potentiometer readings into a common range, runs a PID
correction, and converts the signed correction into two H-bridge drive
magnitudes with a deadband.

Modelling conventions:
* C `double` values are embedded as `ℚ` (all constants in the sketch are
  exactly representable, and every claim below evaluates exactly).
* `millis()` timestamps are embedded as `ℕ`; the sketch
  `currentMillis - previousMillis >= interval` test is truncated natural
  subtraction, which agrees with the unsigned C arithmetic for monotone
  timestamps.
* C `double → long` / `double → int` conversions (implicit in the calls
  `map(filteredPWM, …)` and `analogWrite(pin, Output1)`) truncate toward
  zero; `cint` below embeds that conversion.
* The global variables of the sketch become the fields of `LoopState`; one
  iteration of `loop()` becomes the pure transition `loopStep`.
-/

namespace Servo

/-! ## Tuning constants (top of the sketch) -/

/-- Sketch constant `double deadband = 5;`. -/
def deadband : ℚ := 5

/-- Sketch constant `double Pk1 = 5;` (proportional gain). -/
def Pk1 : ℚ := 5

/-- Sketch constant `double Ik1 = 0.05;` (integral gain). -/
def Ik1 : ℚ := 0.05

/-- Sketch constant `double Dk1 = 0.5;` (derivative gain). -/
def Dk1 : ℚ := 0.5

/-- Sketch constant `const long interval = 50;` — the control-loop sample period, also passed
to `PID1.SetSampleTime`. -/
def interval : ℕ := 50

/-- Sketch constant `int potMin = 0;`. -/
def potMin : ℤ := 0

/-- Sketch constant `int potMax = 400;`. -/
def potMax : ℤ := 400

/-- Sketch constant `int pwmMin = 1000;`. -/
def pwmMin : ℤ := 1000

/-- Sketch constant `int pwmMax = 2000;`. -/
def pwmMax : ℤ := 2000

/-- Sketch constant `int outputMin = -200;`. -/
def outputMin : ℤ := -200

/-- Sketch constant `int outputMax = 200;`. -/
def outputMax : ℤ := 200

/-- Sketch constant `double alphaLowPass = 0.5;`. -/
def alphaLowPass : ℚ := 0.5

/-- Sketch constant `double alphaHighPass = 0.5;`. -/
def alphaHighPass : ℚ := 0.5

/-! ## Primitive conversions and the Arduino `map` -/

/-- C conversion of a floating-point value to an integer type: truncation
toward zero. Used for the implicit `double → long` argument conversion in
`map(filteredPWM, …)` and the `double → int` conversion in
`analogWrite(pin, Output1)`. -/
def cint (q : ℚ) : ℤ := if q < 0 then -⌊-q⌋ else ⌊q⌋

/-- The Arduino `map` function:
`(x - in_min) * (out_max - out_min) / (in_max - in_min) + out_min`
over `long`, where `/` is C integer division (truncation toward zero,
`Int.tdiv`). Linear interpolation with no clamping of out-of-range inputs. -/
def arduinoMap (x fromLow fromHigh toLow toHigh : ℤ) : ℤ :=
  ((x - fromLow) * (toHigh - toLow)).tdiv (fromHigh - fromLow) + toLow

/-! ## Signal filters (sketch lines 77–84) -/

/-- Sketch function `double lowPassFilter(double newPWM, double filteredPWM, double alpha)`:
`return alpha * newPWM + (1 - alpha) * filteredPWM;` -/
def lowPassFilter (newPWM filteredPWM alpha : ℚ) : ℚ :=
  alpha * newPWM + (1 - alpha) * filteredPWM

/-- Sketch function `double highPassFilter(double newPWM, double previousPWM, double alpha)`:
`return alpha * (highPassPWM + newPWM - previousPWM);` — the C function reads
the global `highPassPWM`; here that global is passed as the explicit first
argument. -/
def highPassFilter (highPassPWM newPWM previousPWM alpha : ℚ) : ℚ :=
  alpha * (highPassPWM + newPWM - previousPWM)

/-- The filter-related globals of the sketch: `filteredPWM`, `highPassPWM`,
`previousPWM`. -/
structure FilterState where
  filteredPWM : ℚ
  highPassPWM : ℚ
  previousPWM : ℚ
deriving DecidableEq

/-- One tick of the filter section of `loop()` (lines 95–99): low-pass first
(using the old `filteredPWM`), high-pass second (using the old `highPassPWM`
and the old `previousPWM`), then `previousPWM = pwm`. -/
def filterStep (pw : ℚ) (s : FilterState) : FilterState :=
  { filteredPWM := lowPassFilter pw s.filteredPWM alphaLowPass
    highPassPWM := highPassFilter s.highPassPWM pw s.previousPWM alphaHighPass
    previousPWM := pw }

/-- The per-tick `(filteredPWM, highPassPWM)` outputs produced by running the
filter section over a list of raw pulse-width samples. -/
def filterTrace (pws : List ℚ) (s : FilterState) : List (ℚ × ℚ) :=
  match pws with
  | [] => []
  | pw :: rest =>
      let s2 := filterStep pw s
      (s2.filteredPWM, s2.highPassPWM) :: filterTrace rest s2

/-- Initial values of the filter globals:
`previousPWM = 1500; filteredPWM = 1500; highPassPWM = 0;`. -/
def filterInit : FilterState := ⟨1500, 0, 1500⟩

/-! ## PID controller -/

/-- Clamp a value to the configured PID output limits, the way
`PID_v1` clamps both its accumulator and its final output:
values above `outputMax` become `outputMax`, values below `outputMin`
become `outputMin`. -/
def clampOut (x : ℚ) : ℚ :=
  if x > (outputMax : ℚ) then (outputMax : ℚ)
  else if x < (outputMin : ℚ) then (outputMin : ℚ)
  else x

/-- Internal state of the PID controller: integral accumulator, the error seen
by the previous successful compute, and the timestamp of that compute. -/
structure PIDInternal where
  outputSum : ℚ
  lastErr : ℚ
  lastTime : ℕ
deriving DecidableEq

/-- Modelled from the spec: the sketch calls `PID1.Compute()` from the
external `PID_v1` library, whose source is not part of this repository.
Per the PIDController contract of the spec (§4.2): `compute()` produces a new
result only once at least one sample period (`interval`, set by
`PID1.SetSampleTime(interval)`) has elapsed since the previous successful
compute — calling more frequently is a no-op that leaves the last output
unchanged; it integrates the error over time, differentiates the error
trend, clamps the integral accumulator implicitly by the output bounds
(anti-windup), and its output is always within
`[outputMin, outputMax]` (set by `PID1.SetOutputLimits`).
Arguments: `now` is `millis()`, `setpoint`/`input` are `Setpoint1`/`Input1`,
`curOutput` is the current value of `Output1` (returned unchanged on the
no-op path), `s` is the internal state. -/
def pidCompute (now : ℕ) (setpoint input curOutput : ℚ) (s : PIDInternal) :
    ℚ × PIDInternal :=
  if interval ≤ now - s.lastTime then
    let error := setpoint - input
    let sum := clampOut (s.outputSum + Ik1 * error)
    let raw := Pk1 * error + sum + Dk1 * (error - s.lastErr)
    (clampOut raw, ⟨sum, error, now⟩)
  else
    (curOutput, s)

/-- Fold `pidCompute` over a sequence of `(time, setpoint, input)` steps,
threading the output and the internal state. -/
def pidRun (steps : List (ℕ × ℚ × ℚ)) (o : ℚ) (s : PIDInternal) :
    ℚ × PIDInternal :=
  match steps with
  | [] => (o, s)
  | (t, sp, inp) :: rest =>
      let r := pidCompute t sp inp o s
      pidRun rest r.1 r.2

/-! ## Deadband and drive logic (sketch lines 121–139) -/

/-- The three drive states of the deadband/direction logic. -/
inductive DriveState where
  | STOPPED
  | FORWARD
  | REVERSE
deriving DecidableEq

/-- Deadband zeroing `if (abs(Output1) < deadband) Output1 = 0;` — force outputs inside the
deadband to exactly 0. -/
def applyDeadband (out1 : ℚ) : ℚ :=
  if |out1| < deadband then 0 else out1

/-- The drive state selected by the branch on the (deadband-adjusted)
`Output1`: zero → STOPPED, positive → FORWARD, negative → REVERSE. -/
def driveState (out1 : ℚ) : DriveState :=
  if out1 = 0 then DriveState.STOPPED
  else if out1 > 0 then DriveState.FORWARD
  else DriveState.REVERSE

/-- The pair of values written by `analogWrite(motorPin1, _)` and
`analogWrite(motorPin2, _)` for the (deadband-adjusted) `Output1`:
`(0, 0)` when stopped, `(Output1, 0)` forward, `(0, abs(Output1))` reverse,
with the C `double → int` truncation applied by `analogWrite`. Both channels
are freshly written every tick, whatever their previous values. -/
def driveWrites (out1 : ℚ) : ℤ × ℤ :=
  if out1 = 0 then (0, 0)
  else if out1 > 0 then (cint out1, 0)
  else (0, cint |out1|)

/-! ## The control loop -/

/-- The global state of the sketch threaded through `loop()` iterations:
timing, filter globals, PID interface variables, PID internals, the
new-sample flag `done`, and the values last written to the two motor pins. -/
structure LoopState where
  previousMillis : ℕ
  previousPWM : ℚ
  filteredPWM : ℚ
  highPassPWM : ℚ
  Setpoint1 : ℚ
  Input1 : ℚ
  Output1 : ℚ
  Output1a : ℚ
  pid : PIDInternal
  done : Bool
  motor1 : ℤ
  motor2 : ℤ
deriving DecidableEq

/-- The low-pass-filtered pulse width computed by a tick:
`filteredPWM = lowPassFilter(pwm, filteredPWM, alphaLowPass);`. -/
def tickFiltered (pw : ℕ) (s : LoopState) : ℚ :=
  lowPassFilter (pw : ℚ) s.filteredPWM alphaLowPass

/-- The setpoint computed by a tick:
`Setpoint1 = map(filteredPWM, pwmMin, pwmMax, outputMin, outputMax);`
(the `double` argument is truncated to `long` by the call). -/
def tickSetpoint (pw : ℕ) (s : LoopState) : ℚ :=
  (arduinoMap (cint (tickFiltered pw s)) pwmMin pwmMax outputMin outputMax : ℚ)

/-- The measured input computed by a tick:
`Input1 = map(pot, potMin, potMax, outputMin, outputMax);`. -/
def tickInput (pot : ℤ) : ℚ :=
  (arduinoMap pot potMin potMax outputMin outputMax : ℚ)

/-- The value of `Output1` right after `PID1.Compute()` returns on a due
tick (before the deadband adjustment): the PID result if the own
sample-time gate passes, otherwise the unchanged previous `Output1`. -/
def rawPidOutput (t : ℕ) (pot : ℤ) (pw : ℕ) (s : LoopState) : ℚ :=
  (pidCompute t (tickSetpoint pw s) (tickInput pot) s.Output1 s.pid).1

/-- One invocation of `loop()`, as a pure state transition.
`t` is `millis()`, `pot` is `analogRead(potPin)`, `pw` is the captured
pulse width `pwm`. If the sample period has not elapsed
(`currentMillis - previousMillis >= interval` fails) nothing at all happens.
Otherwise the tick runs in source order: filters, debug print (no state),
range mapping, PID compute, deadband, motor writes, and finally the `done`
flag handling (`if (!done) return; done = false;`), which leaves `done`
false either way. -/
def loopStep (t : ℕ) (pot : ℤ) (pw : ℕ) (s : LoopState) : LoopState :=
  if interval ≤ t - s.previousMillis then
    let filtered := tickFiltered pw s
    let hp := highPassFilter s.highPassPWM (pw : ℚ) s.previousPWM alphaHighPass
    let sp := tickSetpoint pw s
    let inp := tickInput pot
    let pidRes := pidCompute t sp inp s.Output1 s.pid
    let out := applyDeadband pidRes.1
    let m := driveWrites out
    { previousMillis := t
      previousPWM := (pw : ℚ)
      filteredPWM := filtered
      highPassPWM := hp
      Setpoint1 := sp
      Input1 := inp
      Output1 := out
      Output1a := if out < 0 then |out| else s.Output1a
      pid := pidRes.2
      done := false
      motor1 := m.1
      motor2 := m.2 }
  else
    s

/-- Globals of the sketch at startup: C++ zero-initialization plus the
explicit initializers (`previousMillis = 0`, `previousPWM = 1500`,
`filteredPWM = 1500`, `highPassPWM = 0`). -/
def initialState : LoopState :=
  { previousMillis := 0
    previousPWM := 1500
    filteredPWM := 1500
    highPassPWM := 0
    Setpoint1 := 0
    Input1 := 0
    Output1 := 0
    Output1a := 0
    pid := ⟨0, 0, 0⟩
    done := false
    motor1 := 0
    motor2 := 0 }

/-! ## Helper lemmas -/

/-- The PID output clamp lands in `[outputMin, outputMax]`. -/
theorem clampOut_bounds (x : ℚ) :
    (outputMin : ℚ) ≤ clampOut x ∧ clampOut x ≤ (outputMax : ℚ) := by
  unfold clampOut
  norm_num [outputMin, outputMax]
  split_ifs with h1 h2 <;> constructor <;> linarith

/-- The drive-write pair never has both components positive. -/
theorem driveWrites_not_both (out1 : ℚ) :
    ¬(0 < (driveWrites out1).1 ∧ 0 < (driveWrites out1).2) := by
  unfold driveWrites
  split_ifs <;> simp

/-- On a due tick, the value written to motor pin 1 is the first component of
the drive writes for the deadband-adjusted PID output. -/
theorem loopStep_motor1_due (t : ℕ) (pot : ℤ) (pw : ℕ) (s : LoopState)
    (hdue : interval ≤ t - s.previousMillis) :
    (loopStep t pot pw s).motor1 =
      (driveWrites (applyDeadband (rawPidOutput t pot pw s))).1 := by
  unfold loopStep
  rw [if_pos hdue]
  rfl

/-- On a due tick, the value written to motor pin 2 is the second component of
the drive writes for the deadband-adjusted PID output. -/
theorem loopStep_motor2_due (t : ℕ) (pot : ℤ) (pw : ℕ) (s : LoopState)
    (hdue : interval ≤ t - s.previousMillis) :
    (loopStep t pot pw s).motor2 =
      (driveWrites (applyDeadband (rawPidOutput t pot pw s))).2 := by
  unfold loopStep
  rw [if_pos hdue]
  rfl

/-- A due tick records its own timestamp in `previousMillis`. -/
theorem loopStep_previousMillis_due (t : ℕ) (pot : ℤ) (pw : ℕ) (s : LoopState)
    (hdue : interval ≤ t - s.previousMillis) :
    (loopStep t pot pw s).previousMillis = t := by
  unfold loopStep
  rw [if_pos hdue]

/-! ## The claims -/

/-- Claim C1: for every tick and every PID output value, the two emitted
drive magnitudes satisfy the H-bridge invariant — either exactly one of the
forward magnitude (`motor1`) and the reverse magnitude (`motor2`) is nonzero,
or both are zero; the drive logic never writes nonzero values to both
channels in the same tick. Stated for an arbitrary due tick from an
arbitrary state, hence for arbitrary PID output values. -/
theorem hbridge_never_both_directions (t : ℕ) (pot : ℤ) (pw : ℕ)
    (s : LoopState) (hdue : interval ≤ t - s.previousMillis) :
    ¬(0 < (loopStep t pot pw s).motor1 ∧ 0 < (loopStep t pot pw s).motor2) := by
  rw [loopStep_motor1_due t pot pw s hdue, loopStep_motor2_due t pot pw s hdue]
  exact driveWrites_not_both _

/-- Witness for C1 at the startup state, first due tick. -/
theorem hbridge_never_both_directions_witness :
    interval ≤ 50 - initialState.previousMillis ∧
    ¬(0 < (loopStep 50 200 1500 initialState).motor1 ∧
      0 < (loopStep 50 200 1500 initialState).motor2) :=
  ⟨by decide, hbridge_never_both_directions 50 200 1500 initialState (by decide)⟩

/-- Claim C2: for every sequence of setpoint/measurement inputs, the PID
output after `compute()` stays within `[outputMin, outputMax]` inclusive,
however large the accumulated error; in particular a constant large positive
error for 1000 ticks never drives the output past `outputMax`, and after the
error reverses the next output is still within the bound (anti-windup),
because the integral accumulator is itself clamped. Stated for any step
sequence from any starting output inside the bounds and any internal state. -/
theorem pid_output_always_clamped (steps : List (ℕ × ℚ × ℚ)) (o : ℚ)
    (p : PIDInternal) (h1 : (outputMin : ℚ) ≤ o) (h2 : o ≤ (outputMax : ℚ)) :
    (outputMin : ℚ) ≤ (pidRun steps o p).1 ∧
      (pidRun steps o p).1 ≤ (outputMax : ℚ) := by
  induction steps generalizing o p with
  | nil => exact ⟨h1, h2⟩
  | cons st rest ih =>
      obtain ⟨t, sp, inp⟩ := st
      have hstep : pidRun ((t, sp, inp) :: rest) o p =
          pidRun rest (pidCompute t sp inp o p).1 (pidCompute t sp inp o p).2 :=
        rfl
      rw [hstep]
      refine ih _ _ ?_ ?_
      · unfold pidCompute
        split_ifs with hg
        · exact (clampOut_bounds _).1
        · exact h1
      · unfold pidCompute
        split_ifs with hg
        · exact (clampOut_bounds _).2
        · exact h2

/-- Witness for C2: a huge positive error followed by a huge reversed error,
starting from output 0. -/
theorem pid_output_always_clamped_witness :
    ((outputMin : ℚ) ≤ 0 ∧ (0 : ℚ) ≤ (outputMax : ℚ)) ∧
    ((outputMin : ℚ) ≤
        (pidRun [(50, 100000, 0), (100, 100000, 0), (150, -100000, 0)] 0
          ⟨0, 0, 0⟩).1 ∧
      (pidRun [(50, 100000, 0), (100, 100000, 0), (150, -100000, 0)] 0
          ⟨0, 0, 0⟩).1 ≤ (outputMax : ℚ)) :=
  ⟨⟨by norm_num [outputMin], by norm_num [outputMax]⟩,
    pid_output_always_clamped [(50, 100000, 0), (100, 100000, 0), (150, -100000, 0)]
      0 ⟨0, 0, 0⟩ (by norm_num [outputMin]) (by norm_num [outputMax])⟩

/-- Claim C3: whenever the PID output of a due tick satisfies
`abs(output) < deadband` (threshold 5), the tick forces `Output1` to exactly
0, selects the STOPPED drive state, and writes zero to both drive channels —
whatever (possibly nonzero) values a previous tick left on `motor1` and
`motor2`, since `s` is arbitrary. -/
theorem deadband_forces_stopped (t : ℕ) (pot : ℤ) (pw : ℕ) (s : LoopState)
    (hdue : interval ≤ t - s.previousMillis)
    (hsmall : |rawPidOutput t pot pw s| < deadband) :
    (loopStep t pot pw s).Output1 = 0 ∧
    driveState (loopStep t pot pw s).Output1 = DriveState.STOPPED ∧
    (loopStep t pot pw s).motor1 = 0 ∧
    (loopStep t pot pw s).motor2 = 0 := by
  have hado : applyDeadband (rawPidOutput t pot pw s) = 0 := by
    unfold applyDeadband
    rw [if_pos hsmall]
  have hout : (loopStep t pot pw s).Output1 = 0 := by
    unfold loopStep
    rw [if_pos hdue]
    exact hado
  refine ⟨hout, ?_, ?_, ?_⟩
  · rw [hout]
    unfold driveState
    simp
  · rw [loopStep_motor1_due t pot pw s hdue, hado]
    rfl
  · rw [loopStep_motor2_due t pot pw s hdue, hado]
    rfl

/-- Witness for C3: at the startup state with a centered command pulse
(1500 µs) and a centered potentiometer reading (200), the PID output of the
first due tick is 0, inside the deadband. -/
theorem deadband_forces_stopped_witness :
    interval ≤ 50 - initialState.previousMillis ∧
    |rawPidOutput 50 200 1500 initialState| < deadband ∧
    ((loopStep 50 200 1500 initialState).Output1 = 0 ∧
     driveState (loopStep 50 200 1500 initialState).Output1 = DriveState.STOPPED ∧
     (loopStep 50 200 1500 initialState).motor1 = 0 ∧
     (loopStep 50 200 1500 initialState).motor2 = 0) := by
  have hdue : interval ≤ 50 - initialState.previousMillis := by decide
  have hsmall : |rawPidOutput 50 200 1500 initialState| < deadband := by
    have ht1 : (200000 : ℤ).tdiv 1000 = 200 := by decide
    have ht2 : (80000 : ℤ).tdiv 400 = 200 := by decide
    norm_num [rawPidOutput, pidCompute, tickSetpoint, tickFiltered, tickInput,
      lowPassFilter, clampOut, cint, arduinoMap, initialState, interval,
      alphaLowPass, Ik1, Pk1, Dk1, pwmMin, pwmMax, potMin, potMax,
      outputMin, outputMax, deadband, ht1, ht2]
  exact ⟨hdue, hsmall, deadband_forces_stopped 50 200 1500 initialState hdue hsmall⟩

/-- Claim C4: per tick the filters compute
low-pass = `alpha * raw + (1 - alpha) * filtered_prev` and
high-pass = `alpha * (highPass_prev + raw - previousRaw)`, in the order
low-pass first (old `filteredPWM`), high-pass second (old `highPassPWM`, old
`previousPWM`), then `previousPWM` is set to the new raw sample (second
conjunct, an exact description of one `filterStep`); and on the raw sample
sequence `[1500, 1600, 1500, 1400]` with `alpha = 0.5` the per-tick outputs
equal the reference values of that old-state-then-update ordering:
low-pass `[1500, 1550, 1525, 1462.5]`, high-pass `[0, 50, -25, -62.5]`
(first conjunct). -/
theorem filter_order_reference_sequence :
    filterTrace [1500, 1600, 1500, 1400] filterInit =
      [(1500, 0), (1550, 50), (1525, -25), (2925 / 2, -125 / 2)] ∧
    ∀ (pw : ℚ) (s : FilterState),
      filterStep pw s =
        ⟨alphaLowPass * pw + (1 - alphaLowPass) * s.filteredPWM,
         alphaHighPass * (s.highPassPWM + pw - s.previousPWM),
         pw⟩ := by
  constructor
  · norm_num [filterTrace, filterStep, lowPassFilter, highPassFilter,
      alphaLowPass, alphaHighPass, filterInit]
  · intro pw s
    rfl

/-- Claim C5: the range mapping is linear interpolation with no clamping.
With the potentiometer parameters `map(x, 0, 400, -200, 200)` equals
`x - 200` for every integer input — in particular `-200` at `x = 0`, `0` at
`x = 200`, `200` at `x = 400` — and an input outside `[0, 400]` yields the
proportionally out-of-range extrapolated value (e.g. `300` at `x = 500`)
rather than a rejected or clamped one. -/
theorem rangeMap_linear_no_clamping :
    (∀ x : ℤ, arduinoMap x 0 400 (-200) 200 = x - 200) ∧
    arduinoMap 0 0 400 (-200) 200 = -200 ∧
    arduinoMap 200 0 400 (-200) 200 = 0 ∧
    arduinoMap 400 0 400 (-200) 200 = 200 ∧
    arduinoMap 500 0 400 (-200) 200 = 300 := by
  have h : ∀ x : ℤ, arduinoMap x 0 400 (-200) 200 = x - 200 := by
    intro x
    unfold arduinoMap
    norm_num
    omega
  refine ⟨h, ?_, ?_, ?_, ?_⟩ <;> rw [h] <;> decide

/-- Claim C6: invoking the control tick twice within less than one sample
period (50 time units) leaves the whole state — PID output `Output1`, the
filter states `filteredPWM`, `highPassPWM`, `previousPWM`, and the drive
outputs `motor1`, `motor2` — unchanged after the second call: a tick that
arrives before the period has elapsed is skipped entirely, with no partial
work. -/
theorem early_second_tick_skipped (t1 t2 : ℕ) (pot1 pot2 : ℤ) (pw1 pw2 : ℕ)
    (s : LoopState) (hdue : interval ≤ t1 - s.previousMillis)
    (hearly : t2 - t1 < interval) :
    loopStep t2 pot2 pw2 (loopStep t1 pot1 pw1 s) = loopStep t1 pot1 pw1 s := by
  set s1 := loopStep t1 pot1 pw1 s with hs1
  have hm : s1.previousMillis = t1 := by
    rw [hs1]
    exact loopStep_previousMillis_due t1 pot1 pw1 s hdue
  have hnot : ¬ interval ≤ t2 - s1.previousMillis := by
    rw [hm]
    omega
  conv_lhs => unfold loopStep
  exact if_neg hnot

/-- Witness for C6: a tick at 50 ms followed by one at 80 ms, with fresh
sensor and pulse readings on the second call. -/
theorem early_second_tick_skipped_witness :
    (interval ≤ 50 - initialState.previousMillis ∧ 80 - 50 < interval) ∧
    loopStep 80 7 1600 (loopStep 50 200 1500 initialState) =
      loopStep 50 200 1500 initialState :=
  ⟨⟨by decide, by decide⟩,
    early_second_tick_skipped 50 80 200 7 1500 1600 initialState
      (by decide) (by decide)⟩

/-- Claim C7: with the raw pulse width held constant at the last captured
value `r` (no new edges), each tick moves the low-pass filtered value
geometrically toward `r`: the distance to `r` after the update equals
`(1 - alphaLowPass)` times the distance before it, so the filtered value
converges at the rate dictated by the smoothing factor and never jumps
discontinuously to `r`. -/
theorem lowpass_geometric_convergence (f r : ℚ) :
    |lowPassFilter r f alphaLowPass - r| = (1 - alphaLowPass) * |f - r| := by
  have h : lowPassFilter r f alphaLowPass - r = (1 - alphaLowPass) * (f - r) := by
    unfold lowPassFilter
    ring
  rw [h, abs_mul,
    abs_of_nonneg (by norm_num [alphaLowPass] : (0 : ℚ) ≤ 1 - alphaLowPass)]

/-- Claim C9: the high-pass filter value is diagnostic-only. Two ticks from
states that differ only in `highPassPWM` produce identical control outputs:
the same PID output `Output1`, the same motor writes, the same setpoint,
measured input, low-pass state, raw-sample memory, and PID internals —
`highPassPWM` never influences the setpoint, the PID, or the drive. -/
theorem highpass_state_noninterference (t : ℕ) (pot : ℤ) (pw : ℕ)
    (s : LoopState) (h1 h2 : ℚ) :
    (loopStep t pot pw { s with highPassPWM := h1 }).Output1 =
      (loopStep t pot pw { s with highPassPWM := h2 }).Output1 ∧
    (loopStep t pot pw { s with highPassPWM := h1 }).motor1 =
      (loopStep t pot pw { s with highPassPWM := h2 }).motor1 ∧
    (loopStep t pot pw { s with highPassPWM := h1 }).motor2 =
      (loopStep t pot pw { s with highPassPWM := h2 }).motor2 ∧
    (loopStep t pot pw { s with highPassPWM := h1 }).Setpoint1 =
      (loopStep t pot pw { s with highPassPWM := h2 }).Setpoint1 ∧
    (loopStep t pot pw { s with highPassPWM := h1 }).Input1 =
      (loopStep t pot pw { s with highPassPWM := h2 }).Input1 ∧
    (loopStep t pot pw { s with highPassPWM := h1 }).filteredPWM =
      (loopStep t pot pw { s with highPassPWM := h2 }).filteredPWM ∧
    (loopStep t pot pw { s with highPassPWM := h1 }).previousPWM =
      (loopStep t pot pw { s with highPassPWM := h2 }).previousPWM ∧
    (loopStep t pot pw { s with highPassPWM := h1 }).pid =
      (loopStep t pot pw { s with highPassPWM := h2 }).pid := by
  by_cases hg : interval ≤ t - s.previousMillis
  · unfold loopStep
    rw [if_pos hg, if_pos hg]
    exact ⟨rfl, rfl, rfl, rfl, rfl, rfl, rfl, rfl⟩
  · unfold loopStep
    rw [if_neg hg, if_neg hg]
    exact ⟨rfl, rfl, rfl, rfl, rfl, rfl, rfl, rfl⟩

/-- Claim C10: the new-sample flag `done` never gates the control
computation. On a due tick the entire result state — sensor read, filters,
range mapping, PID compute, and drive writes — is the same whether or not a
new pulse sample arrived (`done` true or false), and the only effect of the
flag within the tick is that it ends up false (reset when it was set). -/
theorem done_flag_never_gates (t : ℕ) (pot : ℤ) (pw : ℕ) (s : LoopState)
    (b1 b2 : Bool) (hdue : interval ≤ t - s.previousMillis) :
    loopStep t pot pw { s with done := b1 } =
      loopStep t pot pw { s with done := b2 } ∧
    (loopStep t pot pw s).done = false := by
  constructor
  · unfold loopStep
    rw [if_pos hdue, if_pos hdue]
    rfl
  · unfold loopStep
    rw [if_pos hdue]

/-- Witness for C10 at the startup state, with the flag set versus clear. -/
theorem done_flag_never_gates_witness :
    interval ≤ 50 - initialState.previousMillis ∧
    (loopStep 50 3 1200 { initialState with done := true } =
       loopStep 50 3 1200 { initialState with done := false } ∧
     (loopStep 50 3 1200 initialState).done = false) :=
  ⟨by decide, done_flag_never_gates 50 3 1200 initialState true false (by decide)⟩

end Servo
